import Mathlib

/-
Verification of the task-manager core (in-memory task store, CRUD service and
cursor pagination) against its design specification.

The embedding follows the TypeScript sources:
  - src/server/store/task.store.ts      : Task record, Map-based store
  - src/server/store.ts                 : Task record, array-based store
  - src/server/schemas/task.schema.ts   : zod validation schemas
  - src/server/routers/task.router.ts   : Map-based router (list/create/update/delete)
  - src/server/api/routers/task.ts      : array-based router with cursor pagination

Conventions of the embedding:
  - JS numbers used as timestamps/cursors become Int (they are integral in the
    program: Date.now() and copies of stored timestamps).
  - `descricao?: string` (undefined) and `descricao: string | null` both encode
    an absent description; both become Option String with none = absent.
  - zod string length bounds (.min/.max) count string length; Lean String.length
    stands in for JS .length.
  - The JS Map is keyed by the task id and every stored value carries its key as
    its id field, so the store is embedded as a List Task in insertion order;
    Map.set replaces in place, Map.delete removes the (unique) entry,
    Map.values() is the list itself.
  - Array.prototype.sort with comparator (a, b) => b.dataCriacao - a.dataCriacao
    is a stable descending sort by dataCriacao; it is embedded as insertion sort
    with the reflexive relation taskGE (also stable and descending).
  - tRPC parses the input with the zod schema before the handler runs, so every
    operation checks validity first and the store is untouched on a validation
    failure.
-/

set_option autoImplicit false

namespace TaskManager

/-- A task record: id, title, optional description, creation timestamp
(epoch milliseconds). From src/server/store/task.store.ts. -/
structure Task where
  id : String
  titulo : String
  descricao : Option String
  dataCriacao : Int
  deriving DecidableEq

/-- The two error kinds of the service: bad input shape/length, or a reference
to a non-existent id (TRPCError codes BAD_REQUEST via zod, and NOT_FOUND). -/
inductive TaskError where
  | validation
  | notFound
  deriving DecidableEq

/-- Input of the create mutation after zod parsing (createTaskSchema). -/
structure CreateInput where
  titulo : String
  descricao : Option String
  deriving DecidableEq

/-- Input of the Map-router update mutation after zod parsing
(updateTaskSchema: id, optional titulo, optional descricao). -/
structure UpdateInput where
  id : String
  titulo : Option String
  descricao : Option String
  deriving DecidableEq

/-- Input of the array-router update mutation (api/routers/task.ts):
titulo is required there, descricao optional. -/
structure ArrUpdateInput where
  id : String
  titulo : String
  descricao : Option String
  deriving DecidableEq

/-- The sort comparator of every list endpoint:
(a, b) => b.dataCriacao - a.dataCriacao, i.e. a comes (weakly) before b
exactly when b.dataCriacao ≤ a.dataCriacao. -/
def taskGE (a b : Task) : Prop := b.dataCriacao ≤ a.dataCriacao

instance : DecidableRel taskGE := fun a b => Int.decLe b.dataCriacao a.dataCriacao

instance : IsTotal Task taskGE := ⟨fun a b => Int.le_total b.dataCriacao a.dataCriacao⟩

instance : IsTrans Task taskGE := ⟨fun _ _ _ hab hbc => le_trans hbc hab⟩

/-- Stable descending sort by dataCriacao, the meaning of
`[...tasks].sort((a, b) => b.dataCriacao - a.dataCriacao)`. -/
def sortByCreatedDesc (l : List Task) : List Task := l.insertionSort taskGE

/-- Map.get: first (and under the Map invariant, only) record with the id. -/
def mapGet (s : List Task) (id : String) : Option Task :=
  s.find? fun t => t.id == id

/-- Map.set keyed by id: replace the entry in place when the key is present,
append otherwise. -/
def mapSet : List Task → String → Task → List Task
  | [], _, t => [t]
  | x :: xs, k, t => if x.id == k then t :: xs else x :: mapSet xs k t

/-- Map.delete keyed by id: remove the (unique) entry with the key. -/
def mapDelete : List Task → String → List Task
  | [], _ => []
  | x :: xs, k => if x.id == k then xs else x :: mapDelete xs k

/-- createTaskSchema: titulo is a string of length 1..120, descricao an
unconstrained optional string (src/server/schemas/task.schema.ts). -/
def validCreate (i : CreateInput) : Bool :=
  decide (1 ≤ i.titulo.length) && decide (i.titulo.length ≤ 120)

/-- updateTaskSchema: titulo, when provided, must have length 1..120;
descricao unconstrained (src/server/schemas/task.schema.ts). -/
def validUpdate (i : UpdateInput) : Bool :=
  match i.titulo with
  | some t => decide (1 ≤ t.length) && decide (t.length ≤ 120)
  | none => true

/-- The array-router update input schema only requires titulo non-empty
(z.string().min(1), no max) in api/routers/task.ts. -/
def validUpdateArr (i : ArrUpdateInput) : Bool :=
  decide (1 ≤ i.titulo.length)

/-- The create mutation of the Map router (src/server/routers/task.router.ts).
The generated UUID and Date.now() timestamp enter as parameters freshId, now.
`descricao ?? null` maps an absent description to the absent marker. -/
def createOp (s : List Task) (freshId : String) (now : Int) (i : CreateInput) :
    Except TaskError Task × List Task :=
  if validCreate i then
    let newTask : Task := ⟨freshId, i.titulo, i.descricao, now⟩
    (Except.ok newTask, mapSet s freshId newTask)
  else
    (Except.error TaskError.validation, s)

/-- The object spread { ...existingTask, ...input } of the Map-router update:
fields present in the parsed input override, absent fields are retained;
input carries no dataCriacao, and its id equals the looked-up id. -/
def mergeUpdate (existing : Task) (i : UpdateInput) : Task :=
  { id := i.id
    titulo := match i.titulo with | some t => t | none => existing.titulo
    descricao := match i.descricao with | some d => some d | none => existing.descricao
    dataCriacao := existing.dataCriacao }

/-- The update mutation of the Map router (src/server/routers/task.router.ts):
zod-validate, look up, throw NOT_FOUND when absent, else merge and set. -/
def updateOp (s : List Task) (i : UpdateInput) : Except TaskError Task × List Task :=
  if validUpdate i then
    match mapGet s i.id with
    | none => (Except.error TaskError.notFound, s)
    | some existing =>
      let updated := mergeUpdate existing i
      (Except.ok updated, mapSet s i.id updated)
  else
    (Except.error TaskError.validation, s)

/-- The delete mutation of the Map router (src/server/routers/task.router.ts):
look up, throw NOT_FOUND when absent, else delete and return the old record. -/
def deleteOp (s : List Task) (id : String) : Except TaskError Task × List Task :=
  match mapGet s id with
  | none => (Except.error TaskError.notFound, s)
  | some existing => (Except.ok existing, mapDelete s id)

/-- The list query of the Map router: Array.from(store.values()) sorted
descending by dataCriacao. -/
def listOp (s : List Task) : List Task := sortByCreatedDesc s

/-- tasks[i] = { ...tasks[i], ... } of the array router: replace the first
record carrying the id. -/
def setFirstById : List Task → String → Task → List Task
  | [], _, _ => []
  | x :: xs, k, u => if x.id == k then u :: xs else x :: setFirstById xs k u

/-- The update mutation of the array router (src/server/api/routers/task.ts):
titulo is required and descricao is always overwritten with input.descricao
(undefined, i.e. none, when the caller did not provide one). -/
def updateArr (s : List Task) (i : ArrUpdateInput) : Except TaskError Task × List Task :=
  if validUpdateArr i then
    match s.find? (fun t => t.id == i.id) with
    | none => (Except.error TaskError.notFound, s)
    | some existing =>
      let updated : Task := { existing with titulo := i.titulo, descricao := i.descricao }
      (Except.ok updated, setFirstById s i.id updated)
  else
    (Except.error TaskError.validation, s)

/-- The parsed input of the paginated list query of the array router:
z.object({ limit: number 1..50 default 10, cursor: optional number }).optional().
After parsing, limit is always present inside a present input. -/
structure PageInput where
  limit : Nat
  cursor : Option Int
  deriving DecidableEq

/-- input?.limit ?? 10 -/
def limitOf : Option PageInput → Nat
  | some i => i.limit
  | none => 10

/-- input?.cursor -/
def cursorOf : Option PageInput → Option Int
  | some i => i.cursor
  | none => none

/-- The paginated list query of the array router (src/server/api/routers/task.ts):
sort descending, filter strictly below the cursor WHEN THE CURSOR IS TRUTHY
(`cursor ? ... : ...`, so a cursor of 0 takes the unfiltered branch), take the
first limit, and emit the last timestamp as nextCursor exactly when a full page
was returned. -/
def listQuery (tasks : List Task) (input : Option PageInput) : List Task × Option Int :=
  let sortedTasks := sortByCreatedDesc tasks
  let filteredTasks :=
    match cursorOf input with
    | some c =>
      if c = 0 then sortedTasks
      else sortedTasks.filter fun t : Task => decide (t.dataCriacao < c)
    | none => sortedTasks
  let paginatedTasks := filteredTasks.take (limitOf input)
  (paginatedTasks,
    if paginatedTasks.length = limitOf input then
      (paginatedTasks.getLast?).map Task.dataCriacao
    else none)

/-- The pagination algorithm exactly as the specification words it (reference
definition for the refinement comparison): sort all tasks descending by
creation time; if a cursor is given, keep only tasks strictly below it; take
the first limit; next cursor is absent when fewer than limit items were
returned, and otherwise the creation time of the last returned item. -/
def specListPaginated (tasks : List Task) (limit : Nat) (cursor : Option Int) :
    List Task × Option Int :=
  let sorted := sortByCreatedDesc tasks
  let remaining :=
    match cursor with
    | some c => sorted.filter fun t : Task => decide (t.dataCriacao < c)
    | none => sorted
  let page := remaining.take limit
  (page,
    if page.length < limit then none
    else (page.getLast?).map Task.dataCriacao)

/-- Cursor normalisation forced by the truthiness test: a cursor of 0 is
treated as an absent cursor. -/
def normCursor (c : Option Int) : Option Int :=
  match c with
  | some x => if x = 0 then none else some x
  | none => none

instance {ε α : Type} [DecidableEq ε] [DecidableEq α] : DecidableEq (Except ε α) := fun a b =>
  match a, b with
  | Except.ok x, Except.ok y =>
    if h : x = y then isTrue (by rw [h]) else isFalse (by simp [h])
  | Except.error x, Except.error y =>
    if h : x = y then isTrue (by rw [h]) else isFalse (by simp [h])
  | Except.ok _, Except.error _ => isFalse (by simp)
  | Except.error _, Except.ok _ => isFalse (by simp)

/-- The four tasks of the pagination example of the specification, with
creation timestamps 100, 90, 80 and 70 (ids and titles are arbitrary). -/
def task100 : Task := ⟨ "a", "A", none, 100⟩

/-- Second example task, created at 90. -/
def task90 : Task := ⟨ "b", "B", none, 90⟩

/-- Third example task, created at 80. -/
def task80 : Task := ⟨ "c", "C", none, 80⟩

/-- Fourth example task, created at 70. -/
def task70 : Task := ⟨ "d", "D", none, 70⟩

/-- A store holding exactly the four example tasks. -/
def store4 : List Task := [task100, task90, task80, task70]

theorem sorted_sortByCreatedDesc (l : List Task) : List.Sorted taskGE (sortByCreatedDesc l) :=
  List.sorted_insertionSort taskGE l

theorem perm_sortByCreatedDesc (l : List Task) : (sortByCreatedDesc l).Perm l :=
  List.perm_insertionSort taskGE l

theorem sorted_of_sublist {l l2 : List Task} (h : l.Sublist l2)
    (h2 : List.Sorted taskGE l2) : List.Sorted taskGE l :=
  List.Pairwise.sublist h h2

/-- The two ways of phrasing the nextCursor rule agree for a page no longer
than the limit: the code tests page.length === limit, the specification says
absent when fewer than limit items were returned. -/
theorem nextCursor_ite (page : List Task) (L : Nat) (hle : page.length ≤ L) :
    (if page.length = L then (page.getLast?).map Task.dataCriacao else none)
      = (if page.length < L then none else (page.getLast?).map Task.dataCriacao) := by
  by_cases h : page.length = L
  · simp [h]
  · have hlt : page.length < L := lt_of_le_of_ne hle h
    simp [h, hlt]

/-- The code pagination agrees with the specification wording once the cursor
is normalised (a cursor of 0 is treated as absent). -/
theorem listQuery_eq_spec (tasks : List Task) (input : Option PageInput) :
    listQuery tasks input
      = specListPaginated tasks (limitOf input) (normCursor (cursorOf input)) := by
  unfold listQuery specListPaginated normCursor
  cases hc : cursorOf input with
  | none =>
    simp only
    exact congrArg _ (nextCursor_ite _ _ (by simp))
  | some c =>
    by_cases h0 : c = 0
    · simp only [h0, if_pos rfl]
      exact congrArg _ (nextCursor_ite _ _ (by simp))
    · simp only [if_neg h0]
      exact congrArg _ (nextCursor_ite _ _ (by simp))

/-- Every page returned by the paginated list is sorted descending. -/
theorem sorted_listQuery (tasks : List Task) (input : Option PageInput) :
    List.Sorted taskGE (listQuery tasks input).1 := by
  unfold listQuery
  apply sorted_of_sublist (List.take_sublist _ _)
  cases cursorOf input with
  | none => exact sorted_sortByCreatedDesc tasks
  | some c =>
    by_cases h0 : c = 0
    · simp only [h0, if_pos rfl]; exact sorted_sortByCreatedDesc tasks
    · simp only [if_neg h0]
      exact sorted_of_sublist (List.filter_sublist _) (sorted_sortByCreatedDesc tasks)

/-- A task written by Map.set is present in the resulting store. -/
theorem mem_mapSet (s : List Task) (k : String) (t : Task) : t ∈ mapSet s k t := by
  induction s with
  | nil => simp [mapSet]
  | cons x xs ih =>
    simp only [mapSet]
    split
    · exact List.mem_cons_self t xs
    · exact List.mem_cons_of_mem x ih

/-- A successful Map.get returns a record carrying the looked-up id. -/
theorem id_of_mapGet {s : List Task} {id : String} {t : Task}
    (h : mapGet s id = some t) : t.id = id := by
  have := List.find?_some h
  simpa using this

/-- When ids are unique, no record left by Map.delete carries the deleted id. -/
theorem mapDelete_id_ne {s : List Task} {id : String}
    (hnd : (s.map Task.id).Nodup) :
    ∀ u ∈ mapDelete s id, u.id ≠ id := by
  induction s with
  | nil => intro u hu; simp [mapDelete] at hu
  | cons x xs ih =>
    intro u hu hid
    simp only [List.map_cons, List.nodup_cons] at hnd
    simp only [mapDelete] at hu
    by_cases hx : x.id == id
    · rw [if_pos hx] at hu
      have hxid : x.id = id := by simpa using hx
      exact hnd.1 (hxid ▸ hid ▸ List.mem_map_of_mem Task.id hu)
    · rw [if_neg (by simpa using hx)] at hu
      have hxne : x.id ≠ id := by simpa using hx
      rcases List.mem_cons.mp hu with h | h
      · exact hxne (by rw [h] at hid; exact hid)
      · exact ih hnd.2 u h hid

/-- When ids are unique, looking an id up after deleting it finds nothing. -/
theorem mapGet_mapDelete_self {s : List Task} {id : String}
    (hnd : (s.map Task.id).Nodup) :
    mapGet (mapDelete s id) id = none := by
  apply List.find?_eq_none.mpr
  intro u hu
  simpa using mapDelete_id_ne hnd u hu

/-- C1 (counterexample): in the four-task store with limit 2, the second call
(cursor 90) returns exactly limit items, so the code emits nextCursor 70;
the claim asserts nextCursor null there, which is false. -/
theorem c1_secondPage_nextCursor_not_null :
    (listQuery store4 (some ⟨2, some 90⟩)).2 = some 70
    ∧ (some 70 : Option Int) ≠ none := by decide

/-- C1 (amended): with the four example tasks and limit 2, the first call
returns the tasks created at 100 and 90 with nextCursor 90; the second call
(cursor 90) returns the tasks created at 80 and 70 with nextCursor 70; a third
call (cursor 70) returns no items and nextCursor null. -/
theorem c1_pagination_example :
    listQuery store4 (some ⟨2, none⟩) = ([task100, task90], some 90)
    ∧ listQuery store4 (some ⟨2, some 90⟩) = ([task80, task70], some 70)
    ∧ listQuery store4 (some ⟨2, some 70⟩) = ([], none) := by decide

/-- C2 (counterexample): with a store holding one task created at 5, limit 1
and cursor 0, the claimed algorithm (filter strictly below the given cursor)
yields no items and a null nextCursor, but the code treats the falsy cursor 0
as absent and returns the task with nextCursor 5. -/
theorem c2_cursor_zero_diverges_from_spec :
    listQuery [⟨ "a", "A", none, 5⟩] (some ⟨1, some 0⟩)
      = ([⟨ "a", "A", none, 5⟩], some 5)
    ∧ specListPaginated [⟨ "a", "A", none, 5⟩] 1 (some 0) = ([], none)
    ∧ listQuery [⟨ "a", "A", none, 5⟩] (some ⟨1, some 0⟩)
        ≠ specListPaginated [⟨ "a", "A", none, 5⟩] 1 (some 0) := by decide

/-- C2 (amended): for every store, limit in 1..50 (10 when the input is
omitted) and optional cursor, the paginated list equals the specification
algorithm — sort descending, filter strictly below the cursor, take limit,
nextCursor = last timestamp iff a full page was returned — provided the cursor
is first normalised: a cursor of 0 is treated as absent because the code tests
the cursor for truthiness. The returned page is sorted descending. -/
theorem c2_listQuery_matches_spec :
    ∀ (tasks : List Task) (input : Option PageInput),
      1 ≤ limitOf input → limitOf input ≤ 50 →
        listQuery tasks input
          = specListPaginated tasks (limitOf input) (normCursor (cursorOf input))
        ∧ List.Sorted taskGE (listQuery tasks input).1 := by
  intro tasks input _ _
  exact ⟨listQuery_eq_spec tasks input, sorted_listQuery tasks input⟩

/-- C2 (witness): the second example page, concretely. -/
theorem c2_listQuery_matches_spec_witness :
    listQuery store4 (some ⟨2, some 90⟩)
      = specListPaginated store4 2 (normCursor (some 90))
    ∧ List.Sorted taskGE (listQuery store4 (some ⟨2, some 90⟩)).1 :=
  c2_listQuery_matches_spec store4 (some ⟨2, some 90⟩) (by decide) (by decide)

/-- C3 (counterexample): the create schema checks the raw length only
(z.string().min(1).max(120), no trim), so the whitespace-only title made of a
single space is accepted and the record is stored, while the claim requires a
ValidationError for every title that trims to the empty string. -/
theorem c3_whitespace_title_accepted :
    validCreate ⟨ " ", none⟩ = true
    ∧ (" ").toList.all Char.isWhitespace = true
    ∧ (createOp [] "id1" 0 ⟨ " ", none⟩).1 = Except.ok ⟨ "id1", " ", none, 0⟩ := by
  exact ⟨by decide, by decide, rfl⟩

/-- C3 (amended): create fails with ValidationError exactly when the untrimmed
title is empty or longer than 120 characters; no trimming is performed, so
whitespace-only titles are accepted; on success the operation builds the record
from the generated id and timestamp, stores it, and returns it. -/
theorem c3_create_validation_exact :
    ∀ (s : List Task) (freshId : String) (now : Int) (i : CreateInput),
      (i.titulo.length = 0 ∨ 120 < i.titulo.length →
          createOp s freshId now i = (Except.error TaskError.validation, s))
      ∧ (1 ≤ i.titulo.length → i.titulo.length ≤ 120 →
          createOp s freshId now i
            = (Except.ok ⟨freshId, i.titulo, i.descricao, now⟩,
                mapSet s freshId ⟨freshId, i.titulo, i.descricao, now⟩)) := by
  intro s fid now i
  constructor
  · intro h
    have hv : validCreate i = false := by
      unfold validCreate
      simp only [Bool.and_eq_false_iff, decide_eq_false_iff_not]
      omega
    simp [createOp, hv]
  · intro h1 h2
    have hv : validCreate i = true := by
      unfold validCreate
      simp only [Bool.and_eq_true, decide_eq_true_eq]
      omega
    simp [createOp, hv]

/-- C3 (witness): an empty title is rejected without touching the store, and a
normal title is stored and returned. -/
theorem c3_create_validation_exact_witness :
    createOp [] "id1" 0 ⟨ "", none⟩ = (Except.error TaskError.validation, [])
    ∧ createOp [] "id2" 7 ⟨ "Buy milk", none⟩
        = (Except.ok ⟨ "id2", "Buy milk", none, 7⟩, [⟨ "id2", "Buy milk", none, 7⟩]) := by
  constructor
  · exact (c3_create_validation_exact [] "id1" 0 ⟨ "", none⟩).1 (Or.inl (by decide))
  · exact (c3_create_validation_exact [] "id2" 7 ⟨ "Buy milk", none⟩).2 (by decide) (by decide)

/-- C4 (counterexample): the array-router update always overwrites descricao
with input.descricao; updating with only a title therefore clears an existing
description, contradicting the claim that unprovided fields are retained. -/
theorem c4_updateArr_clears_description :
    (updateArr [⟨ "1", "old", some "keep", 10⟩] ⟨ "1", "new", none⟩).2
      = [⟨ "1", "new", none, 10⟩]
    ∧ (⟨ "1", "new", none, 10⟩ : Task).descricao
        ≠ (⟨ "1", "old", some "keep", 10⟩ : Task).descricao := by decide

/-- C4 (amended): the Map-router update merges only the provided fields — an
absent title leaves the title unchanged, an absent description leaves the
description unchanged, and id and creation time are always retained. The
array-router update requires a title, retains id and creation time, but always
overwrites the description with the provided value, clearing it when only a
title was provided. -/
theorem c4_update_field_retention :
    (∀ (s : List Task) (i : UpdateInput) (existing : Task),
        validUpdate i = true → mapGet s i.id = some existing →
          ∃ u, (updateOp s i).1 = Except.ok u
            ∧ (i.titulo = none → u.titulo = existing.titulo)
            ∧ (i.descricao = none → u.descricao = existing.descricao)
            ∧ u.id = existing.id
            ∧ u.dataCriacao = existing.dataCriacao)
    ∧ (∀ (s : List Task) (j : ArrUpdateInput) (existing : Task),
        validUpdateArr j = true → mapGet s j.id = some existing →
          ∃ u, (updateArr s j).1 = Except.ok u
            ∧ u.descricao = j.descricao
            ∧ u.id = existing.id
            ∧ u.dataCriacao = existing.dataCriacao) := by
  constructor
  · intro s i existing hv hget
    refine ⟨mergeUpdate existing i, ?_, ?_, ?_, ?_, rfl⟩
    · simp [updateOp, hv, hget]
    · intro h; simp [mergeUpdate, h]
    · intro h; simp [mergeUpdate, h]
    · exact (id_of_mapGet hget).symm
  · intro s j existing hv hget
    refine ⟨{ existing with titulo := j.titulo, descricao := j.descricao }, ?_, rfl, rfl, rfl⟩
    simp [updateArr, hv]
    rw [show s.find? (fun t => t.id == j.id) = some existing from hget]

/-- C4 (witness): updating with only a description keeps the old title. -/
theorem c4_update_field_retention_witness :
    ∃ u, (updateOp [⟨ "1", "old", some "keep", 10⟩] ⟨ "1", none, some "nd"⟩).1
          = Except.ok u
      ∧ u.titulo = "old" := by
  obtain ⟨u, h1, h2, _, _, _⟩ :=
    c4_update_field_retention.1 [⟨ "1", "old", some "keep", 10⟩]
      ⟨ "1", none, some "nd"⟩ ⟨ "1", "old", some "keep", 10⟩ (by decide) (by decide)
  exact ⟨u, h1, h2 rfl⟩

/-- C5: update on an id absent from the store fails with NotFoundError and
returns the store exactly as it was (no record added, removed or modified),
for every schema-valid input. -/
theorem c5_update_notFound_no_mutation :
    ∀ (s : List Task) (i : UpdateInput),
      validUpdate i = true → mapGet s i.id = none →
        updateOp s i = (Except.error TaskError.notFound, s) := by
  intro s i hv hget
  simp [updateOp, hv, hget]

/-- C5 (witness): updating a missing id in a one-task store. -/
theorem c5_update_notFound_no_mutation_witness :
    updateOp [task100] ⟨ "zzz", none, some "x"⟩
      = (Except.error TaskError.notFound, [task100]) :=
  c5_update_notFound_no_mutation [task100] ⟨ "zzz", none, some "x"⟩ (by decide) (by decide)

/-- C6: in a store with unique ids, deleting a present id removes exactly that
record and returns it, a subsequent list no longer contains it, and a second
delete of the same id — like any delete of an absent id — fails with
NotFoundError. -/
theorem c6_delete_removes_then_notFound :
    ∀ (s : List Task) (id : String),
      (s.map Task.id).Nodup →
        (∀ t, mapGet s id = some t →
            deleteOp s id = (Except.ok t, mapDelete s id)
            ∧ t ∉ listOp (mapDelete s id)
            ∧ (deleteOp (mapDelete s id) id).1 = Except.error TaskError.notFound)
        ∧ (mapGet s id = none → deleteOp s id = (Except.error TaskError.notFound, s)) := by
  intro s id hnd
  constructor
  · intro t hget
    refine ⟨by simp [deleteOp, hget], ?_, ?_⟩
    · intro hmem
      have hmem2 : t ∈ mapDelete s id := by
        have hperm := List.perm_insertionSort taskGE (mapDelete s id)
        simp only [listOp, sortByCreatedDesc] at hmem
        exact hperm.mem_iff.mp hmem
      exact mapDelete_id_ne hnd t hmem2 (id_of_mapGet hget)
    · simp [deleteOp, mapGet_mapDelete_self hnd]
  · intro hget
    simp [deleteOp, hget]

/-- C6 (witness): deleting the only task of a store, concretely. -/
theorem c6_delete_removes_then_notFound_witness :
    deleteOp [task100] "a" = (Except.ok task100, [])
    ∧ task100 ∉ listOp []
    ∧ (deleteOp [] "a").1 = Except.error TaskError.notFound :=
  (c6_delete_removes_then_notFound [task100] "a" (by decide)).1 task100 (by decide)

/-- C7: for every store state, the list endpoint returns a sequence sorted
non-increasing by creation time which is a permutation of (contains exactly)
the tasks in the store. -/
theorem c7_list_sorted_and_complete :
    ∀ s : List Task, List.Sorted taskGE (listOp s) ∧ (listOp s).Perm s :=
  fun s => ⟨List.sorted_insertionSort taskGE s, List.perm_insertionSort taskGE s⟩

/-- C8: for every valid create input and a generated id not already in the
store, the returned task carries that fresh id (distinct from every stored id),
appears in a subsequent list call, has the given title, and its description is
exactly the given one — absent when none was provided. -/
theorem c8_create_fresh_and_listed :
    ∀ (s : List Task) (freshId : String) (now : Int) (i : CreateInput),
      validCreate i = true → freshId ∉ s.map Task.id →
        ∃ t, (createOp s freshId now i).1 = Except.ok t
          ∧ t.id = freshId
          ∧ (∀ u ∈ s, u.id ≠ t.id)
          ∧ t ∈ listOp (createOp s freshId now i).2
          ∧ t.titulo = i.titulo
          ∧ t.descricao = i.descricao := by
  intro s fid now i hv hfresh
  refine ⟨⟨fid, i.titulo, i.descricao, now⟩, ?_, rfl, ?_, ?_, rfl, rfl⟩
  · simp [createOp, hv]
  · intro u hu h
    apply hfresh
    have hm : u.id ∈ s.map Task.id := List.mem_map_of_mem Task.id hu
    rw [h] at hm
    exact hm
  · have h2 : (createOp s fid now i).2
        = mapSet s fid ⟨fid, i.titulo, i.descricao, now⟩ := by
      simp [createOp, hv]
    rw [h2]
    simp only [listOp, sortByCreatedDesc]
    exact (List.perm_insertionSort taskGE _).mem_iff.mpr (mem_mapSet s fid _)

/-- C8 (witness): create with title Buy milk and no description in the empty
store. -/
theorem c8_create_fresh_and_listed_witness :
    ∃ t, (createOp [] "id9" 5 ⟨ "Buy milk", none⟩).1 = Except.ok t
      ∧ t.id = "id9"
      ∧ (∀ u ∈ ([] : List Task), u.id ≠ t.id)
      ∧ t ∈ listOp (createOp [] "id9" 5 ⟨ "Buy milk", none⟩).2
      ∧ t.titulo = "Buy milk"
      ∧ t.descricao = none :=
  c8_create_fresh_and_listed [] "id9" 5 ⟨ "Buy milk", none⟩ (by decide) (by decide)

/-- C9: an input rejected by the zod schema makes create or update fail with
ValidationError and leaves the store exactly unchanged — the schema is checked
before the handler touches the store. -/
theorem c9_invalid_input_no_side_effects :
    (∀ (s : List Task) (freshId : String) (now : Int) (i : CreateInput),
        validCreate i = false →
          createOp s freshId now i = (Except.error TaskError.validation, s))
    ∧ (∀ (s : List Task) (i : UpdateInput),
        validUpdate i = false →
          updateOp s i = (Except.error TaskError.validation, s)) := by
  constructor
  · intro s fid now i hv
    simp [createOp, hv]
  · intro s i hv
    simp [updateOp, hv]

/-- C9 (witness): an empty create title and an empty update title both fail
and leave a one-task store untouched. -/
theorem c9_invalid_input_no_side_effects_witness :
    createOp [task100] "x" 0 ⟨ "", none⟩ = (Except.error TaskError.validation, [task100])
    ∧ updateOp [task100] ⟨ "a", some "", none⟩
        = (Except.error TaskError.validation, [task100]) :=
  ⟨c9_invalid_input_no_side_effects.1 [task100] "x" 0 ⟨ "", none⟩ (by decide),
    c9_invalid_input_no_side_effects.2 [task100] ⟨ "a", some "", none⟩ (by decide)⟩

/-- C10: because the code tests the cursor for truthiness (cursor ? filter :
all), a call with cursor 0 is indistinguishable from a call with no cursor:
no strict-less-than filtering happens and the first page is returned, for
every store and every limit. -/
theorem c10_cursor_zero_like_absent :
    ∀ (tasks : List Task) (limit : Nat),
      listQuery tasks (some ⟨limit, some 0⟩) = listQuery tasks (some ⟨limit, none⟩) :=
  fun _ _ => rfl

end TaskManager
